import Mathlib

/-!
# Verification of the agent task orchestrator

A shallow embedding, in Lean 4, of the parts of the `agent-orchestrator`
service that the specification's claims are about:

* the model-selection data model, scoring engine and policy enforcer
  (`model_selection/types.py`, `scoring_engine.py`, `policy_enforcer.py`);
* the cost engine and the orchestrator's credit-settlement step
  (`cost_engine.py`, `orchestrator.py`);
* the per-provider circuit breaker (`rate_limiter.py`);
* the tool-execution layer: permission gateway, quota manager, result
  normalizer and DAG executor (`tool_execution/*.py`).

Python numbers are modelled exactly: `int` as `Int` (or `Nat` where the
source only ever holds non-negative counts), `float` arithmetic as `Rat`,
and Python's banker's rounding `round` as `roundHalfEven`.  I/O-bound
callables (tool adapters, registries, quota clocks) are passed in as
explicit function arguments, so the control flow of the embedded
functions is total and deterministic.
-/

namespace ModelSelection

/-- `CostLevel` from `model_selection/types.py` (free < low < medium < high). -/
inductive CostLevel where
  | free
  | low
  | medium
  | high
  deriving DecidableEq, Repr

/-- `LatencyLevel` from `model_selection/types.py`. -/
inductive LatencyLevel where
  | fast
  | medium
  | slow
  deriving DecidableEq, Repr

/-- `Provider` from `model_selection/types.py`. -/
inductive Provider where
  | openai
  | anthropic
  | groq
  | ollama
  deriving DecidableEq, Repr

/-- `Provider.value`: the string value of the enum member. -/
def Provider.value : Provider → String
  | .openai => "openai"
  | .anthropic => "anthropic"
  | .groq => "groq"
  | .ollama => "ollama"

/-- `ModelCapabilities` from `model_selection/types.py` (0-10 integer scores). -/
structure ModelCapabilities where
  reasoning : Int := 5
  coding : Int := 5
  long_context : Int := 5
  summarization : Int := 5
  planning : Int := 5
  structured_output : Int := 5
  multimodal : Int := 0
  speed : Int := 5
  web_search : Int := 0
  real_time_data : Int := 0
  deriving DecidableEq, Repr

/-- Modelled from the spec: `ModelPricing` is imported by `cost_engine.py`
from `model_selection.types` but its definition is not present under the
source tree; the spec describes a model descriptor's "optional pricing
pair (credits/1k in, credits/1k out) and USD pair". -/
structure ModelPricing where
  credits_per_1k_input : Rat
  credits_per_1k_output : Rat
  usd_per_1k_input : Rat := 0
  usd_per_1k_output : Rat := 0
  deriving DecidableEq, Repr

/-- `ModelDefinition` from `model_selection/types.py`; the `pricing`
field is the optional pricing of the spec's model descriptor, read by
`cost_engine.py` as `model.pricing`. -/
structure ModelDefinition where
  name : String
  provider : Provider
  cost_level : CostLevel
  latency : LatencyLevel
  max_tokens : Int
  available : Bool := true
  capabilities : ModelCapabilities
  pricing : Option ModelPricing := none
  deriving DecidableEq, Repr

/-- `TaskCapabilityProfile` from `model_selection/types.py`.  The
`required_capabilities` dict (capability name → importance weight) is
modelled as an association list. -/
structure TaskCapabilityProfile where
  required_capabilities : List (String × Rat) := []
  min_capability_score : Int := 5
  max_cost_level : CostLevel := .high
  requires_local : Bool := false
  context_length_needed : Int := 4000
  agent_role : Option String := none
  deriving DecidableEq, Repr

/-- `ModelScore` from `model_selection/types.py`. -/
structure ModelScore where
  model_name : String
  provider : Provider
  total_score : Rat
  capability_score : Rat
  speed_score : Rat
  cost_score : Rat
  reliability_score : Rat
  meets_requirements : Bool
  disqualification_reason : Option String := none
  deriving DecidableEq, Repr

end ModelSelection

namespace CostEngine

open ModelSelection

/-- `FALLBACK_CREDITS_PER_1K` from `cost_engine.py`: (input rate, output
rate) per cost level, used when a model has no pricing config. -/
def fallbackCreditsPer1k : CostLevel → Rat × Rat
  | .free => (0, 0)
  | .low => (1, 2)
  | .medium => (5, 10)
  | .high => (25, 50)

/-- `CostEngine.get_pricing`: explicit pricing when present, else the
cost-level fallback table. -/
def getPricing (model : ModelDefinition) : Rat × Rat :=
  match model.pricing with
  | some p => (p.credits_per_1k_input, p.credits_per_1k_output)
  | none => fallbackCreditsPer1k model.cost_level

/-- Python's built-in `round`: round half to even (banker's rounding). -/
def roundHalfEven (q : Rat) : Int :=
  let f : Int := ⌊q⌋
  let r : Rat := q - f
  if r < 1/2 then f
  else if 1/2 < r then f + 1
  else if f % 2 = 0 then f else f + 1

/-- `CostEngine.calculate_credits_for_model`: actual credits consumed
after execution, rounded to nearest, floored at 1 for non-free models. -/
def calculateCreditsForModel (model : ModelDefinition)
    (input_tokens output_tokens : Nat) : Int :=
  let rates := getPricing model
  let input_credits : Rat := ((input_tokens : Rat) / 1000) * rates.1
  let output_credits : Rat := ((output_tokens : Rat) / 1000) * rates.2
  let total := roundHalfEven (input_credits + output_credits)
  if model.cost_level ≠ CostLevel.free ∧ total < 1 then 1 else total

/-- `CostEngine.estimate_credits_for_model`: pre-execution estimate,
rounded up via Python's `int(x + 0.99)` (truncation); floored at 1 for
non-free models. -/
def estimateCreditsForModel (model : ModelDefinition)
    (estimated_input_tokens : Nat := 1000) (estimated_output_tokens : Nat := 500) : Int :=
  let rates := getPricing model
  let input_credits : Rat := ((estimated_input_tokens : Rat) / 1000) * rates.1
  let output_credits : Rat := ((estimated_output_tokens : Rat) / 1000) * rates.2
  let sum : Rat := input_credits + output_credits + 99/100
  let total : Int := if sum < 0 then -⌊-sum⌋ else ⌊sum⌋
  if model.cost_level ≠ CostLevel.free ∧ total < 1 then 1 else total

/-- The credit-settlement slice of `orchestrator.execute_task` (lines
319–353): compute actual credits with `calculate_credits_for_model`,
then call `consume_credits` only if the amount is positive.  Returns the
credits charged and whether the consume step runs. -/
def creditSettlement (model : ModelDefinition)
    (input_tokens output_tokens : Nat) : Int × Bool :=
  let credits_consumed := calculateCreditsForModel model input_tokens output_tokens
  (credits_consumed, credits_consumed > 0)

end CostEngine

section Scratch

open ModelSelection CostEngine

/-- A non-free model with no explicit pricing (capability fields at
their defaults), used in concrete evaluations. -/
def lowTierModel : ModelDefinition :=
  { name := "groq-llama"
    provider := .groq
    cost_level := .low
    latency := .fast
    max_tokens := 8000
    capabilities := {} }

/-- A free local model with no explicit pricing. -/
def freeLocalModel : ModelDefinition :=
  { name := "ollama-llama"
    provider := .ollama
    cost_level := .free
    latency := .fast
    max_tokens := 8000
    capabilities := {} }

/-- `round` of an integer value is that integer. -/
theorem roundHalfEven_intCast (n : Int) : roundHalfEven (n : Rat) = n := by
  unfold roundHalfEven
  simp [Int.floor_intCast]

/-- `round 0 = 0`. -/
theorem roundHalfEven_zero : roundHalfEven 0 = 0 := by
  have h := roundHalfEven_intCast 0
  simpa using h

example : calculateCreditsForModel lowTierModel 0 0 = 1 := by
  simp [calculateCreditsForModel, getPricing, lowTierModel, fallbackCreditsPer1k,
    roundHalfEven_zero]

example : calculateCreditsForModel freeLocalModel 0 0 = 0 := by
  simp [calculateCreditsForModel, getPricing, freeLocalModel, fallbackCreditsPer1k,
    roundHalfEven_zero]

example : calculateCreditsForModel lowTierModel 1000 500 = 2 := by
  norm_num [calculateCreditsForModel, getPricing, lowTierModel, fallbackCreditsPer1k,
    roundHalfEven]

end Scratch

section ClaimC3

open ModelSelection CostEngine

/-- C3, counterexample: the claim states that token usage of zero (both
input and output tokens 0) yields zero actual credits even for a
non-free model and that the consume step is skipped.  On the code, a
non-free model with zero tokens is charged the 1-credit floor
(`calculate_credits_for_model` bumps any total below 1 to 1 whenever the
cost level is not free), so `credits_consumed = 1 > 0` and the consume
step runs. -/
theorem claim_C3_counterexample :
    calculateCreditsForModel lowTierModel 0 0 = 1 ∧
    (creditSettlement lowTierModel 0 0).2 = true := by
  constructor
  · simp [calculateCreditsForModel, getPricing, lowTierModel, fallbackCreditsPer1k,
      roundHalfEven_zero]
  · simp [creditSettlement, calculateCreditsForModel, getPricing, lowTierModel,
      fallbackCreditsPer1k, roundHalfEven_zero]

/-- C3 (amended): for every model and every pair of token counts, the
post-execution credit computation returns at least 1 for any non-free
model — including zero token usage, where the consume step therefore
runs and charges the 1-credit minimum; a free-tier model with no
explicit pricing yields 0 credits and the consume step is skipped.  The
consume step runs exactly when the computed credits are positive. -/
theorem claim_C3_credit_floor (m : ModelDefinition) (i o : Nat) :
    (m.cost_level ≠ CostLevel.free →
      1 ≤ calculateCreditsForModel m i o ∧ (creditSettlement m i o).2 = true) ∧
    (m.cost_level = CostLevel.free → m.pricing = none →
      calculateCreditsForModel m i o = 0 ∧ (creditSettlement m i o).2 = false) := by
  constructor
  · intro hnf
    have h1 : 1 ≤ calculateCreditsForModel m i o := by
      unfold calculateCreditsForModel
      dsimp only
      split
      · exact le_refl 1
      · rename_i h
        rw [not_and_or] at h
        rcases h with h | h
        · exact absurd hnf (by simpa using h)
        · omega
    refine ⟨h1, ?_⟩
    simp only [creditSettlement, decide_eq_true_eq]
    omega
  · intro hfree hpr
    have h0 : calculateCreditsForModel m i o = 0 := by
      unfold calculateCreditsForModel
      rw [getPricing, hpr, hfree]
      dsimp only
      simp [fallbackCreditsPer1k, roundHalfEven_zero]
    refine ⟨h0, ?_⟩
    simp only [creditSettlement, h0]
    simp

/-- Witness for `claim_C3_credit_floor` at concrete inputs: a low-tier
model with zero tokens, and a free local model with a few tokens. -/
theorem claim_C3_credit_floor_witness :
    (1 ≤ calculateCreditsForModel lowTierModel 0 0 ∧
      (creditSettlement lowTierModel 0 0).2 = true) ∧
    (calculateCreditsForModel freeLocalModel 3 4 = 0 ∧
      (creditSettlement freeLocalModel 3 4).2 = false) :=
  ⟨(claim_C3_credit_floor lowTierModel 0 0).1 (by decide),
   (claim_C3_credit_floor freeLocalModel 3 4).2 (by decide) (by decide)⟩

end ClaimC3

namespace CircuitBreaker

/-- `CircuitBreakerState` from `rate_limiter.py`. -/
inductive CBState where
  | closed
  | opened
  | halfOpen
  deriving DecidableEq, Repr

/-- `CircuitBreakerStats` from `rate_limiter.py`: per-provider counters
and latched failure time (`time.time()`, modelled as an integer). -/
structure CBStats where
  failures : Nat := 0
  successes : Nat := 0
  last_failure_time : Option Int := none
  state : CBState := .closed
  deriving DecidableEq, Repr

/-- The fresh `CircuitBreakerStats()` a provider starts with. -/
def initStats : CBStats := {}

/-- `FAILURE_THRESHOLD` from `rate_limiter.py`. -/
def FAILURE_THRESHOLD : Nat := 5

/-- `RECOVERY_TIMEOUT_SECONDS` from `rate_limiter.py`. -/
def RECOVERY_TIMEOUT_SECONDS : Int := 60

/-- `SUCCESS_THRESHOLD` from `rate_limiter.py`. -/
def SUCCESS_THRESHOLD : Nat := 3

/-- `CircuitBreaker.can_execute` for one provider's stats, at wall-clock
time `t`: returns the updated stats and whether the call is admitted.
In the OPEN state, once `RECOVERY_TIMEOUT_SECONDS` have elapsed since
the latched failure time, the state moves to HALF_OPEN and the call is
admitted. -/
def canExecute (t : Int) (s : CBStats) : CBStats × Bool :=
  match s.state with
  | .closed => (s, true)
  | .opened =>
    match s.last_failure_time with
    | some lft =>
      if t - lft ≥ RECOVERY_TIMEOUT_SECONDS then
        ({ s with state := .halfOpen }, true)
      else (s, false)
    | none => (s, false)
  | .halfOpen => (s, true)

/-- `CircuitBreaker.record_success` for one provider's stats.  The
success counter always increments; only in HALF_OPEN does reaching
`SUCCESS_THRESHOLD` close the circuit and reset both counters. -/
def recordSuccess (s : CBStats) : CBStats :=
  let s1 := { s with successes := s.successes + 1 }
  if s1.state = .halfOpen ∧ s1.successes ≥ SUCCESS_THRESHOLD then
    { s1 with state := .closed, failures := 0, successes := 0 }
  else s1

/-- `CircuitBreaker.record_failure` for one provider's stats at time
`t`.  The failure counter always increments and the failure time is
latched; HALF_OPEN re-opens immediately (resetting the success
counter), otherwise reaching `FAILURE_THRESHOLD` opens the circuit. -/
def recordFailure (t : Int) (s : CBStats) : CBStats :=
  let s1 := { s with failures := s.failures + 1, last_failure_time := some t }
  if s1.state = .halfOpen then
    { s1 with state := .opened, successes := 0 }
  else if s1.failures ≥ FAILURE_THRESHOLD then
    { s1 with state := .opened }
  else s1

/-- An event applied to one provider's circuit breaker. -/
inductive CBEvent where
  | canExec (t : Int)
  | success
  | failure (t : Int)
  deriving DecidableEq, Repr

/-- Apply one event to the stats (discarding `can_execute`'s boolean). -/
def step (s : CBStats) : CBEvent → CBStats
  | .canExec t => (canExecute t s).1
  | .success => recordSuccess s
  | .failure t => recordFailure t s

/-- Run a sequence of events from a given state. -/
def run (s : CBStats) (evs : List CBEvent) : CBStats :=
  evs.foldl step s

/-- The state reached by one step, as a function of the previous
counters: failure and success counters are cumulative, not runs of
consecutive events. -/
def stateAfter (s : CBStats) : CBEvent → CBState
  | .canExec t =>
    match s.state, s.last_failure_time with
    | .opened, some lft =>
      if t - lft ≥ RECOVERY_TIMEOUT_SECONDS then .halfOpen else .opened
    | st, _ => st
  | .success =>
    match s.state with
    | .halfOpen => if s.successes + 1 ≥ SUCCESS_THRESHOLD then .closed else .halfOpen
    | st => st
  | .failure _ =>
    match s.state with
    | .halfOpen => .opened
    | .opened => .opened
    | .closed => if s.failures + 1 ≥ FAILURE_THRESHOLD then .opened else .closed

end CircuitBreaker

section ClaimC2

open CircuitBreaker

/-- C2, counterexample: the claim states that the only CLOSED→OPEN
transition is caused by 5 *consecutive* failures and the only
HALF_OPEN→CLOSED transition by 3 *consecutive* successes while
HALF_OPEN.  On the code the counters are cumulative: a success while
CLOSED does not reset the failure counter, so four failures, one
success and a fifth failure open the circuit (the last run of
consecutive failures has length 1); and successes recorded while CLOSED
survive into HALF_OPEN, so after two early successes a single HALF_OPEN
success closes the circuit. -/
theorem claim_C2_counterexample :
    (run initStats
      [.failure 0, .failure 1, .failure 2, .failure 3, .success]).state = .closed ∧
    (run initStats
      [.failure 0, .failure 1, .failure 2, .failure 3, .success, .failure 4]).state
      = .opened ∧
    (run initStats
      [.success, .success, .failure 0, .failure 1, .failure 2, .failure 3, .failure 4,
        .canExec 100]).state = .halfOpen ∧
    (run initStats
      [.success, .success, .failure 0, .failure 1, .failure 2, .failure 3, .failure 4,
        .canExec 100, .success]).state = .closed := by
  decide

/-- C2 (amended): started CLOSED, the per-provider breaker's state
transitions are exactly: a recorded failure takes CLOSED to OPEN as
soon as the *cumulative* failure counter (not reset by interleaved
successes) reaches FAILURE_THRESHOLD (5); an admission attempt at least
RECOVERY_TIMEOUT (60 s) after the latched failure time takes OPEN to
HALF_OPEN; a recorded success takes HALF_OPEN to CLOSED as soon as the
*cumulative* success counter (which may already be positive on entering
HALF_OPEN) reaches SUCCESS_THRESHOLD (3), resetting both counters; a
single failure while HALF_OPEN takes it back to OPEN; no other event
changes the state. -/
theorem claim_C2_transition_characterization
    (evs : List CBEvent) (e : CBEvent) :
    (run initStats (evs ++ [e])).state = stateAfter (run initStats evs) e := by
  simp only [run, List.foldl_append, List.foldl]
  generalize List.foldl step initStats evs = s
  cases e with
  | canExec t =>
    simp only [step, canExecute, stateAfter]
    cases hs : s.state <;> cases hl : s.last_failure_time <;> simp_all <;>
      split <;> simp_all
  | success =>
    simp only [step, recordSuccess, stateAfter]
    cases hs : s.state <;> simp_all <;> split <;> simp_all
  | failure t =>
    simp only [step, recordFailure, stateAfter]
    cases hs : s.state <;> simp_all <;> split <;> simp_all

end ClaimC2

namespace ToolExec

/-- `ToolCategory` from `tool_execution/types.py`. -/
inductive ToolCategory where
  | data
  | communication
  | document
  | system
  | integration
  deriving DecidableEq, Repr

/-- `ToolVendor` from `tool_execution/types.py`. -/
inductive ToolVendor where
  | google
  | microsoft
  | aws
  | internal
  | custom
  deriving DecidableEq, Repr

/-- `ToolVendor.value`: the string value of the enum member. -/
def ToolVendor.value : ToolVendor → String
  | .google => "google"
  | .microsoft => "microsoft"
  | .aws => "aws"
  | .internal => "internal"
  | .custom => "custom"

/-- `CostLevel` from `tool_execution/types.py` (tools have no free tier). -/
inductive ToolCostLevel where
  | low
  | medium
  | high
  deriving DecidableEq, Repr

/-- `RetryPolicy` from `tool_execution/types.py`. -/
inductive RetryPolicy where
  | none
  | fixed
  | exponential
  deriving DecidableEq, Repr

/-- `PermissionStatus` from `tool_execution/types.py`. -/
inductive PermissionStatus where
  | granted
  | denied
  | insufficientScope
  | tokenExpired
  | tokenInvalid
  deriving DecidableEq, Repr

/-- `ToolInputSchema` from `tool_execution/types.py`: a JSON-schema
subset; `properties` maps a field name to its declared type string. -/
structure ToolInputSchema where
  type : String := "object"
  properties : List (String × String) := []
  required : List String := []
  deriving DecidableEq, Repr

/-- `ToolDefinition` from `tool_execution/types.py`. -/
structure ToolDefinition where
  tool_name : String
  description : String := ""
  category : ToolCategory
  input_schema : ToolInputSchema := {}
  required_permissions : List String := []
  vendor : ToolVendor
  timeout_seconds : Int := 30
  retry_policy : RetryPolicy := .none
  max_retries : Nat := 3
  cost_level : ToolCostLevel := .low
  available : Bool := true
  deriving DecidableEq, Repr

/-- `PermissionScope` from `tool_execution/types.py`.  The dicts
`oauth_tokens` (vendor → token) and `token_expiry` (vendor → expiry
datetime, modelled as an integer timestamp) are association lists. -/
structure PermissionScope where
  user_id : String
  office_id : String
  granted_scopes : List String := []
  oauth_tokens : List (String × String) := []
  token_expiry : List (String × Int) := []
  deriving DecidableEq, Repr

/-- `PermissionResult` from `tool_execution/types.py`. -/
structure PermissionResult where
  status : PermissionStatus
  allowed : Bool
  missing_permissions : List String := []
  reason : Option String := none
  deriving DecidableEq, Repr

/-- Dictionary lookup on an association list (`d[k]` / `k in d`). -/
def lookupStr {α : Type} (l : List (String × α)) (k : String) : Option α :=
  (l.find? (fun p => p.1 == k)).map (fun p => p.2)

/-- `SecurityGateway.validate_oauth_token` at wall-clock time `now`:
DENIED when no token is stored for the vendor, TOKEN_EXPIRED when an
expiry is stored and passed, TOKEN_INVALID when the token is empty or
shorter than 10 characters, else GRANTED.  (`required_scopes` is
accepted but never read, as in the source.) -/
def validateOauthToken (user_scopes : PermissionScope) (vendor : ToolVendor)
    (required_scopes : List String) (now : Int) : PermissionResult :=
  let vendor_key := vendor.value
  match lookupStr user_scopes.oauth_tokens vendor_key with
  | none =>
    { status := .denied, allowed := false,
      reason := some ("No OAuth token for " ++ vendor_key) }
  | some token =>
    match lookupStr user_scopes.token_expiry vendor_key with
    | some expiry =>
      if now > expiry then
        { status := .tokenExpired, allowed := false,
          reason := some ("OAuth token for " ++ vendor_key ++ " has expired") }
      else if token = "" ∨ token.length < 10 then
        { status := .tokenInvalid, allowed := false,
          reason := some ("Invalid OAuth token for " ++ vendor_key) }
      else { status := .granted, allowed := true }
    | none =>
      if token = "" ∨ token.length < 10 then
        { status := .tokenInvalid, allowed := false,
          reason := some ("Invalid OAuth token for " ++ vendor_key) }
      else { status := .granted, allowed := true }

/-- `SecurityGateway.check_permissions`: `missing` is the plain set
difference `required − granted` (exact string matching); a non-empty
difference yields INSUFFICIENT_SCOPE, then non-internal vendors get an
OAuth token check. -/
def checkPermissions (tool : ToolDefinition) (user_scopes : PermissionScope)
    (now : Int) : PermissionResult :=
  let required := tool.required_permissions.dedup
  let granted := user_scopes.granted_scopes
  if required.isEmpty then { status := .granted, allowed := true }
  else
    let missing := required.filter (fun r => ¬ granted.contains r)
    if ¬ missing.isEmpty then
      { status := .insufficientScope, allowed := false,
        missing_permissions := missing,
        reason := some ("Missing permissions: " ++ String.intercalate ", " missing) }
    else if tool.vendor ≠ ToolVendor.internal then
      let token_result := validateOauthToken user_scopes tool.vendor required now
      if ¬ token_result.allowed then token_result
      else { status := .granted, allowed := true }
    else { status := .granted, allowed := true }

/-- Python `s.endswith(t)`, computed structurally on the character
lists. -/
def pyEndsWith (s t : String) : Bool :=
  s.data.reverse.take t.data.length == t.data.reverse

/-- Python `s.startswith(t)`, computed structurally on the character
lists. -/
def pyStartsWith (s t : String) : Bool :=
  s.data.take t.data.length == t.data

/-- Python `s[:-1]`: drop the final character. -/
def pyDropLast (s : String) : String :=
  String.mk s.data.dropLast

/-- `SecurityGateway._scope_matches`: exact match, or a granted entry
ending in `.*` whose prefix (keeping the dot, dropping only the `*`)
starts the required scope. -/
def scopeMatches (granted : List String) (required : String) : Bool :=
  granted.any (fun scope =>
    scope == required ||
      (pyEndsWith scope ".*" && pyStartsWith required (pyDropLast scope)))

/-- `SecurityGateway.enforce_scope`: every required scope must be
matched by some granted scope under `scopeMatches`. -/
def enforceScope (granted_scopes required_scopes : List String) : Bool :=
  required_scopes.all (fun required => scopeMatches granted_scopes required)

/-- Stated from the claim's words, for comparison with the code: the
set of required scopes counted as missing when a required scope counts
as granted under the exact-or-wildcard rule (which is the rule of
`enforce_scope`, not of `check_permissions`). -/
def claimMissing (tool : ToolDefinition) (user_scopes : PermissionScope) :
    List String :=
  tool.required_permissions.dedup.filter
    (fun r => ¬ scopeMatches user_scopes.granted_scopes r)

end ToolExec

section ClaimC1

open ToolExec

/-- A tool requiring one Google scope, as in the repository's own test
fixtures. -/
def sheetsTool : ToolDefinition :=
  { tool_name := "google_sheets_read"
    description := "Read from Google Sheets"
    category := .data
    vendor := .google
    required_permissions := ["google.sheets.read"] }

/-- A user granted only the wildcard scope together with a valid,
unexpired OAuth token. -/
def wildcardScopes : PermissionScope :=
  { user_id := "user123"
    office_id := "office456"
    granted_scopes := ["google.*"]
    oauth_tokens := [("google", "valid_token_12345678901234567890")]
    token_expiry := [("google", 1000)] }

example : scopeMatches wildcardScopes.granted_scopes "google.sheets.read" = true := by
  decide

/-- C1, counterexample: under the claim's match rule the wildcard grant
`google.*` covers the required scope `google.sheets.read`, so the
missing set is empty and the claim predicts GRANTED.  The code's
`check_permissions` computes `required - granted` by exact string
match only (the wildcard rule lives in `enforce_scope`, which
`check_permissions` never calls), so it returns INSUFFICIENT_SCOPE
with `google.sheets.read` reported missing. -/
theorem claim_C1_counterexample :
    claimMissing sheetsTool wildcardScopes = [] ∧
    (checkPermissions sheetsTool wildcardScopes 0).status =
      PermissionStatus.insufficientScope ∧
    (checkPermissions sheetsTool wildcardScopes 0).missing_permissions =
      ["google.sheets.read"] := by
  decide

/-- The exact-match missing list of `check_permissions`, as a set, is
the set difference `required − granted`. -/
theorem missing_filter_toFinset (tool : ToolDefinition) (scopes : PermissionScope) :
    (tool.required_permissions.dedup.filter
      (fun r => ¬ scopes.granted_scopes.contains r)).toFinset =
    tool.required_permissions.toFinset \ scopes.granted_scopes.toFinset := by
  ext a
  simp [List.mem_filter, List.mem_dedup, Finset.mem_sdiff, List.elem_iff]

/-- `validate_oauth_token` never reports INSUFFICIENT_SCOPE. -/
theorem validateOauthToken_ne_insufficient (scopes : PermissionScope)
    (vendor : ToolVendor) (req : List String) (now : Int) :
    (validateOauthToken scopes vendor req now).status ≠
      PermissionStatus.insufficientScope := by
  unfold validateOauthToken
  dsimp only
  repeat' split
  all_goals simp

/-- C1 (amended): `check_permissions` computes the missing set as
`required − granted` by *exact* string matching — a granted entry
ending in `.*` is not expanded there (the wildcard rule exists only in
`enforce_scope`/`_scope_matches`, which `check_permissions` does not
call).  It returns INSUFFICIENT_SCOPE exactly when that exact-match
difference is non-empty, and then reports exactly that set as
missing. -/
theorem claim_C1_exact_missing (tool : ToolDefinition) (scopes : PermissionScope)
    (now : Int) :
    ((checkPermissions tool scopes now).status = PermissionStatus.insufficientScope ↔
      tool.required_permissions.toFinset \ scopes.granted_scopes.toFinset ≠ ∅) ∧
    (tool.required_permissions.toFinset \ scopes.granted_scopes.toFinset ≠ ∅ →
      (checkPermissions tool scopes now).missing_permissions.toFinset =
        tool.required_permissions.toFinset \ scopes.granted_scopes.toFinset ∧
      (checkPermissions tool scopes now).allowed = false) := by
  have hm := missing_filter_toFinset tool scopes
  unfold checkPermissions
  dsimp only
  split
  · rename_i h1
    rw [List.isEmpty_iff, List.dedup_eq_nil] at h1
    simp [h1]
  · rename_i h1
    split
    · rename_i h2
      rw [List.isEmpty_iff] at h2
      constructor
      · simp only [true_iff]
        rw [← hm]
        intro hc
        rw [List.toFinset_eq_empty_iff] at hc
        exact h2 hc
      · intro _
        exact ⟨hm, rfl⟩
    · rename_i h2
      rw [not_not, List.isEmpty_iff] at h2
      have hdiff : tool.required_permissions.toFinset \ scopes.granted_scopes.toFinset = ∅ := by
        rw [← hm, h2]
        simp
      split
      · split
        · rename_i h3 h4
          constructor
          · simp only [hdiff, ne_eq, not_true_eq_false, iff_false]
            exact validateOauthToken_ne_insufficient scopes tool.vendor
              tool.required_permissions.dedup now
          · intro hne
            exact absurd hdiff hne
        · simp [hdiff]
      · simp [hdiff]

/-- A tool requiring a scope the fixture user was never granted. -/
def gmailTool : ToolDefinition :=
  { tool_name := "gmail_send"
    description := "Send email"
    category := .communication
    vendor := .google
    required_permissions := ["google.gmail.send"] }

/-- The fixture user's scopes: both sheet scopes, valid Google token. -/
def sheetsScopes : PermissionScope :=
  { user_id := "user123"
    office_id := "office456"
    granted_scopes := ["google.sheets.read", "google.sheets.write"]
    oauth_tokens := [("google", "valid_token_12345678901234567890")]
    token_expiry := [("google", 1000)] }

/-- Witness for `claim_C1_exact_missing` at the repository's own test
fixture: the tool requires `google.gmail.send`, which the user has not
been granted, so the exact-match difference is non-empty. -/
theorem claim_C1_exact_missing_witness :
    (gmailTool.required_permissions.toFinset \
      sheetsScopes.granted_scopes.toFinset ≠ ∅) ∧
    ((checkPermissions gmailTool sheetsScopes 0).status =
      PermissionStatus.insufficientScope) ∧
    ((checkPermissions gmailTool sheetsScopes 0).missing_permissions.toFinset =
      gmailTool.required_permissions.toFinset \
        sheetsScopes.granted_scopes.toFinset) ∧
    (checkPermissions gmailTool sheetsScopes 0).allowed = false := by
  have hne : gmailTool.required_permissions.toFinset \
      sheetsScopes.granted_scopes.toFinset ≠ ∅ := by decide
  have h2 := (claim_C1_exact_missing gmailTool sheetsScopes 0).2 hne
  have h1 := (claim_C1_exact_missing gmailTool sheetsScopes 0).1.mpr hne
  exact ⟨hne, h1, h2.1, h2.2⟩

end ClaimC1

namespace QuotaManager

open ToolExec

/-- `QuotaManager._active_requests`: the nested
`defaultdict(lambda: defaultdict(int))`, modelled as a total map
(user, vendor) → int with default 0. -/
def ActiveMap : Type := String × ToolVendor → Int

/-- The empty defaultdict: every counter reads 0. -/
def initActive : ActiveMap := fun _ => 0

/-- `QuotaManager.increment_active`. -/
def incrementActive (user_id : String) (vendor : ToolVendor) (m : ActiveMap) :
    ActiveMap :=
  fun k => if k = (user_id, vendor) then m (user_id, vendor) + 1 else m k

/-- `QuotaManager.decrement_active`: decrements only when the counter
is strictly positive. -/
def decrementActive (user_id : String) (vendor : ToolVendor) (m : ActiveMap) :
    ActiveMap :=
  fun k =>
    if k = (user_id, vendor) then
      if m (user_id, vendor) > 0 then m (user_id, vendor) - 1
      else m (user_id, vendor)
    else m k

/-- One call to the active-request counters. -/
inductive ActiveEvent where
  | inc (user_id : String) (vendor : ToolVendor)
  | dec (user_id : String) (vendor : ToolVendor)
  deriving DecidableEq

/-- Apply one call. -/
def applyActive (m : ActiveMap) : ActiveEvent → ActiveMap
  | .inc u v => incrementActive u v m
  | .dec u v => decrementActive u v m

/-- Run a call sequence against the fresh counters. -/
def runActive (evs : List ActiveEvent) : ActiveMap :=
  evs.foldl applyActive initActive

/-- One call preserves pointwise non-negativity of the counters. -/
theorem applyActive_nonneg {m : ActiveMap} (hm : ∀ k, 0 ≤ m k)
    (e : ActiveEvent) : ∀ k, 0 ≤ applyActive m e k := by
  intro k
  cases e with
  | inc u v =>
    simp only [applyActive, incrementActive]
    split
    · have := hm (u, v)
      omega
    · exact hm k
  | dec u v =>
    simp only [applyActive, decrementActive]
    split
    · split
      · rename_i h
        omega
      · exact hm (u, v)
    · exact hm k

/-- A call sequence preserves pointwise non-negativity. -/
theorem foldl_applyActive_nonneg (evs : List ActiveEvent) :
    ∀ (m : ActiveMap), (∀ k, 0 ≤ m k) → ∀ k, 0 ≤ (evs.foldl applyActive m) k := by
  induction evs with
  | nil => intro m hm k; exact hm k
  | cons e rest ih =>
    intro m hm k
    exact ih (applyActive m e) (applyActive_nonneg hm e) k

end QuotaManager

section ClaimC8

open ToolExec QuotaManager

/-- C8 (confirmed): after any sequence of `increment_active` and
`decrement_active` calls starting from fresh counters, every
(user, vendor) active-request counter is non-negative, and a
`decrement_active` on a counter already at zero leaves it at zero. -/
theorem claim_C8_active_never_negative (evs : List ActiveEvent)
    (u : String) (v : ToolVendor) :
    0 ≤ runActive evs (u, v) ∧
    (runActive evs (u, v) = 0 →
      runActive (evs ++ [ActiveEvent.dec u v]) (u, v) = 0) := by
  constructor
  · exact foldl_applyActive_nonneg evs initActive (fun _ => le_refl 0) (u, v)
  · intro h0
    rw [runActive, List.foldl_append]
    simp only [List.foldl]
    show applyActive (runActive evs) (ActiveEvent.dec u v) (u, v) = 0
    simp only [applyActive, decrementActive, if_pos rfl]
    rw [h0]
    simp

/-- Witness for `claim_C8_active_never_negative`: a lone decrement on
the fresh counters leaves the counter at zero. -/
theorem claim_C8_active_never_negative_witness :
    runActive [ActiveEvent.dec "user123" ToolVendor.google]
      ("user123", ToolVendor.google) = 0 := by
  have h := (claim_C8_active_never_negative [] "user123" ToolVendor.google).2 rfl
  simpa using h

end ClaimC8

namespace ResultNormalizer

/-- `ExecutionStatus` from `tool_execution/types.py`. -/
inductive ExecutionStatus where
  | pending
  | running
  | success
  | partialSuccess
  | failure
  | blocked
  deriving DecidableEq, Repr

/-- `Artifact` from `tool_execution/types.py`; `content` and
`metadata` values are modelled as strings. -/
structure Artifact where
  type : String
  url : Option String := none
  content : Option String := none
  metadata : List (String × String) := []
  mime_type : Option String := none
  deriving DecidableEq, Repr

/-- `StepResult` from `tool_execution/types.py`; the output dict is an
association list. -/
structure StepResult where
  step_id : String
  tool : String
  status : ExecutionStatus
  artifacts : List Artifact := []
  output : Option (List (String × String)) := none
  error : Option String := none
  latency_ms : Int := 0
  retry_count : Nat := 0
  deriving DecidableEq, Repr

/-- `ExecutionResult` from `tool_execution/types.py`; datetimes are
integer timestamps. -/
structure ExecutionResult where
  status : ExecutionStatus
  execution_id : String
  artifacts : List Artifact := []
  message : String
  errors : List String := []
  step_results : List StepResult := []
  total_latency_ms : Int := 0
  steps_completed : Nat := 0
  steps_failed : Nat := 0
  started_at : Option Int := none
  completed_at : Option Int := none
  deriving DecidableEq, Repr

/-- `AdapterResult` from `tool_execution/types.py`. -/
structure AdapterResult where
  success : Bool
  data : Option (List (String × String)) := none
  artifacts : List Artifact := []
  error : Option String := none
  error_code : Option String := none
  latency_ms : Int := 0
  deriving DecidableEq, Repr

/-- `ResultNormalizer.normalize_step`: SUCCESS when the adapter
succeeded, FAILURE otherwise; everything else is copied through. -/
def normalizeStep (step_id tool : String) (adapter_result : AdapterResult)
    (retry_count : Nat := 0) : StepResult :=
  { step_id := step_id
    tool := tool
    status := if adapter_result.success then .success else .failure
    artifacts := adapter_result.artifacts
    output := adapter_result.data
    error := adapter_result.error
    latency_ms := adapter_result.latency_ms
    retry_count := retry_count }

/-- `ResultNormalizer._generate_message`. -/
def generateMessage (status : ExecutionStatus)
    (total_steps completed failed : Nat) : String :=
  if status = .success then
    if total_steps = 1 then "Task completed successfully."
    else s!"All {total_steps} steps completed successfully."
  else if status = .partialSuccess then
    s!"Partial success: {completed}/{total_steps} steps completed, {failed} failed."
  else if status = .failure then
    if total_steps = 1 then "Task failed."
    else s!"Execution failed: {failed}/{total_steps} steps failed."
  else
    s!"{completed}/{total_steps} steps completed."

/-- `ResultNormalizer.normalize_execution`: count successes and
failures, derive the aggregate status, concatenate artifacts, collect
non-empty errors, and sum latencies. -/
def normalizeExecution (execution_id : String) (step_results : List StepResult)
    (started_at completed_at : Option Int) : ExecutionResult :=
  let steps_completed :=
    step_results.countP (fun r => r.status == ExecutionStatus.success)
  let steps_failed :=
    step_results.countP (fun r => r.status == ExecutionStatus.failure)
  let status : ExecutionStatus :=
    if steps_failed = 0 then .success
    else if steps_completed = 0 then .failure
    else .partialSuccess
  let all_artifacts := (step_results.map StepResult.artifacts).flatten
  let errors := step_results.filterMap (fun r =>
    match r.error with
    | some e => if e = "" then none else some e
    | none => none)
  let total_latency := (step_results.map StepResult.latency_ms).sum
  { status := status
    execution_id := execution_id
    artifacts := all_artifacts
    message := generateMessage status step_results.length steps_completed steps_failed
    errors := errors
    step_results := step_results
    total_latency_ms := total_latency
    steps_completed := steps_completed
    steps_failed := steps_failed
    started_at := started_at
    completed_at := completed_at }

/-- `ResultNormalizer.create_error_result` at wall-clock time `now`. -/
def createErrorResult (execution_id error : String) (now : Int) : ExecutionResult :=
  { status := .failure
    execution_id := execution_id
    artifacts := []
    message := s!"Execution failed: {error}"
    errors := [error]
    step_results := []
    total_latency_ms := 0
    steps_completed := 0
    steps_failed := 0
    started_at := some now
    completed_at := some now }

/-- `ResultNormalizer.create_blocked_result` at wall-clock time `now`. -/
def createBlockedResult (execution_id reason : String) (now : Int) : ExecutionResult :=
  { status := .blocked
    execution_id := execution_id
    artifacts := []
    message := s!"Execution blocked: {reason}"
    errors := [reason]
    step_results := []
    total_latency_ms := 0
    steps_completed := 0
    steps_failed := 0
    started_at := some now
    completed_at := some now }

/-- The step-result lists the DAG executor passes to
`normalize_execution` are built entirely by `normalize_step` over
adapter results, one triple (step id, tool, adapter result) per
executed or synthesized step. -/
def normalizeStepList (items : List (String × String × AdapterResult)) :
    List StepResult :=
  items.map (fun it => normalizeStep it.1 it.2.1 it.2.2 0)

end ResultNormalizer

section ClaimC5

open ResultNormalizer

/-- Every step result produced by `normalize_step` has status SUCCESS
or FAILURE, so the two counters partition the list. -/
theorem normalizeStepList_count_partition
    (items : List (String × String × AdapterResult)) :
    (normalizeStepList items).countP (fun r => r.status == ExecutionStatus.success)
      + (normalizeStepList items).countP (fun r => r.status == ExecutionStatus.failure)
      = (normalizeStepList items).length := by
  induction items with
  | nil => rfl
  | cons a rest ih =>
    have hcons : normalizeStepList (a :: rest) =
        normalizeStep a.1 a.2.1 a.2.2 0 :: normalizeStepList rest := rfl
    rw [hcons, List.countP_cons, List.countP_cons, List.length_cons]
    by_cases h : a.2.2.success
    · simp only [normalizeStep, h, if_true]
      simp only [show ((ExecutionStatus.success == ExecutionStatus.success) = true)
        from rfl]
      simp only [show ((ExecutionStatus.success == ExecutionStatus.failure) = false)
        from rfl]
      simp only [if_true, Bool.false_eq_true, if_false]
      omega
    · simp only [normalizeStep, h, if_false, Bool.false_eq_true]
      simp only [show ((ExecutionStatus.failure == ExecutionStatus.success) = false)
        from rfl]
      simp only [show ((ExecutionStatus.failure == ExecutionStatus.failure) = true)
        from rfl]
      simp only [if_true, Bool.false_eq_true, if_false]
      omega

/-- C5 (confirmed): for every list of step results handed to
`normalize_execution` by the executors (each built by
`normalize_step`, hence SUCCESS or FAILURE): completed plus failed
equals the number of step results; the aggregate status is SUCCESS iff
no step failed; and, given at least one step, the aggregate status is
FAILURE iff no step completed (otherwise PARTIAL_SUCCESS). -/
theorem claim_C5_aggregation (eid : String)
    (items : List (String × String × AdapterResult)) (t1 t2 : Option Int) :
    ((normalizeExecution eid (normalizeStepList items) t1 t2).steps_completed
      + (normalizeExecution eid (normalizeStepList items) t1 t2).steps_failed
      = (normalizeStepList items).length) ∧
    ((normalizeExecution eid (normalizeStepList items) t1 t2).status
        = ExecutionStatus.success ↔
      (normalizeExecution eid (normalizeStepList items) t1 t2).steps_failed = 0) ∧
    (normalizeStepList items ≠ [] →
      ((normalizeExecution eid (normalizeStepList items) t1 t2).status
          = ExecutionStatus.failure ↔
        (normalizeExecution eid (normalizeStepList items) t1 t2).steps_completed = 0)) := by
  have key := normalizeStepList_count_partition items
  unfold normalizeExecution
  dsimp only
  refine ⟨key, ?_, ?_⟩
  · split
    · rename_i h
      simp [h]
    · rename_i h
      split <;> simp [h]
  · intro hne
    have hlen : (normalizeStepList items).length ≠ 0 := by
      simpa [List.length_eq_zero] using hne
    split
    · rename_i h
      constructor
      · intro hc
        exact absurd hc (by simp)
      · intro hc
        omega
    · rename_i h
      split <;> simp_all

/-- A successful and a failed adapter result, for concrete runs. -/
def adapterOk : AdapterResult := { success := true }

/-- A failed adapter result. -/
def adapterFailed : AdapterResult :=
  { success := false, error := some "boom", error_code := some "RETRY_EXHAUSTED" }

/-- Witness for `claim_C5_aggregation` on a two-step execution with one
success and one failure: the list is non-empty and the FAILURE iff
holds (the aggregate here is PARTIAL_SUCCESS). -/
theorem claim_C5_aggregation_witness :
    normalizeStepList [("s1", "tool1", adapterOk), ("s2", "tool2", adapterFailed)] ≠ [] ∧
    ((normalizeExecution "e"
        (normalizeStepList [("s1", "tool1", adapterOk), ("s2", "tool2", adapterFailed)])
        none none).status = ExecutionStatus.failure ↔
      (normalizeExecution "e"
        (normalizeStepList [("s1", "tool1", adapterOk), ("s2", "tool2", adapterFailed)])
        none none).steps_completed = 0) :=
  ⟨by decide,
   (claim_C5_aggregation "e" [("s1", "tool1", adapterOk), ("s2", "tool2", adapterFailed)]
      none none).2.2 (by decide)⟩

end ClaimC5

section ClaimC10

open ResultNormalizer

/-- C10 (confirmed): `normalize_execution` on an empty list of step
results returns SUCCESS with zero completed, zero failed, no artifacts
and no errors — the FAILURE rule applies only with at least one
step. -/
theorem claim_C10_empty_execution (eid : String) (t1 t2 : Option Int) :
    (normalizeExecution eid [] t1 t2).status = ExecutionStatus.success ∧
    (normalizeExecution eid [] t1 t2).steps_completed = 0 ∧
    (normalizeExecution eid [] t1 t2).steps_failed = 0 ∧
    (normalizeExecution eid [] t1 t2).artifacts = [] ∧
    (normalizeExecution eid [] t1 t2).errors = [] := by
  simp [normalizeExecution]

end ClaimC10

namespace ExecOrchestrator

open ToolExec ResultNormalizer

/-- `FailureHandling` from `tool_execution/types.py`; `cont` is the
source's CONTINUE. -/
inductive FailureHandling where
  | stop
  | cont
  | retry
  | fallback
  deriving DecidableEq, Repr

/-- `ActionStep` from `tool_execution/types.py`; the inputs dict is an
association list and datetimes are integer timestamps. -/
structure ActionStep where
  step_id : String
  tool : String
  inputs : List (String × String) := []
  timeout_override : Option Int := none
  failure_handling : FailureHandling := .stop
  depends_on : List String := []
  status : ExecutionStatus := .pending
  started_at : Option Int := none
  completed_at : Option Int := none
  result : Option (List (String × String)) := none
  error : Option String := none
  deriving DecidableEq, Repr

/-- `ActionPlan` from `tool_execution/types.py`. -/
structure ActionPlan where
  execution_id : String
  steps : List ActionStep
  context : List (String × String) := []
  parallel_execution : Bool := false
  created_at : Int := 0
  created_by : Option String := none
  office_id : Option String := none
  deriving DecidableEq, Repr

/-- `ExecutionContext` from `tool_execution/types.py`; `shared_data`
maps a step id to that step's output dict. -/
structure ExecutionContext where
  user_id : String
  office_id : String
  permissions : PermissionScope
  shared_data : List (String × List (String × String)) := []
  dry_run : Bool := false
  deriving DecidableEq, Repr

/-- The orchestrator's injected collaborators: the tool registry's
`validate_tool_exists`, `validate_inputs` (valid flag and error
message) and `get_tool`; the quota manager's `check_quota` (allowed
flag and reason); `execute_step` as a function of the step and the
accumulated shared data; and the wall clock. -/
structure Deps where
  validateToolExists : String → Bool
  validateInputs : String → List (String × String) → Bool × Option String
  getTool : String → Option ToolDefinition
  checkQuota : String → ToolVendor → String → Bool × String
  execStep : ActionStep → List (String × List (String × String)) → StepResult
  now : Int

/-- Python dict assignment `d[k] = v` on an association list. -/
def setAssoc {α : Type} (l : List (String × α)) (k : String) (v : α) :
    List (String × α) :=
  if l.any (fun p => p.1 == k) then
    l.map (fun p => if p.1 == k then (k, v) else p)
  else l ++ [(k, v)]

/-- Python `d.pop(k, None)` on an association list. -/
def eraseAssoc {α : Type} (l : List (String × α)) (k : String) :
    List (String × α) :=
  l.filter (fun p => !(p.1 == k))

/-- `ExecutionOrchestrator._create_error_adapter_result`. -/
def createErrorAdapterResult (error : String) : AdapterResult :=
  { success := false, error := some error, error_code := some "ORCHESTRATOR_ERROR" }

/-- `ExecutionOrchestrator._validate_plan` over the step list: reject
on the first unknown tool or invalid inputs; `depends_on` is never
inspected. -/
def validatePlanSteps (d : Deps) : List ActionStep → Option String
  | [] => none
  | step :: rest =>
    if ¬ d.validateToolExists step.tool then
      some ("Unknown tool: " ++ step.tool)
    else
      match d.validateInputs step.tool step.inputs with
      | (false, err) =>
        some ("Invalid inputs for " ++ step.tool ++ ": " ++ err.getD "None")
      | (true, _) => validatePlanSteps d rest

/-- `ExecutionOrchestrator._validate_plan`. -/
def validatePlan (d : Deps) (plan : ActionPlan) : Option String :=
  validatePlanSteps d plan.steps

/-- `ExecutionOrchestrator._check_all_permissions`: first denial
reason, if any (steps whose tool is not in the registry are skipped). -/
def checkAllPermissions (d : Deps) (ctx : ExecutionContext) :
    List ActionStep → Option String
  | [] => none
  | step :: rest =>
    match d.getTool step.tool with
    | some tool =>
      let result := checkPermissions tool ctx.permissions d.now
      if ¬ result.allowed then
        some ("Permission denied for " ++ step.tool ++ ": " ++ result.reason.getD "None")
      else checkAllPermissions d ctx rest
    | none => checkAllPermissions d ctx rest

/-- `ExecutionOrchestrator._check_all_quotas`: first quota denial, if
any. -/
def checkAllQuotas (d : Deps) (ctx : ExecutionContext) :
    List ActionStep → Option String
  | [] => none
  | step :: rest =>
    match d.getTool step.tool with
    | some tool =>
      match d.checkQuota step.tool tool.vendor ctx.user_id with
      | (false, reason) =>
        some ("Quota exceeded for " ++ tool.vendor.value ++ ": " ++ reason)
      | (true, _) => checkAllQuotas d ctx rest
    | none => checkAllQuotas d ctx rest

/-- `ExecutionOrchestrator._is_step_successful`. -/
def isStepSuccessful (results : List StepResult) (step_id : String) : Bool :=
  match results.find? (fun r => r.step_id == step_id) with
  | some r => r.status == ExecutionStatus.success
  | none => false

/-- The failure result synthesized for a step whose dependencies were
not met. -/
def depsNotMetResult (step : ActionStep) : StepResult :=
  normalizeStep step.step_id step.tool (createErrorAdapterResult "Dependencies not met") 0

/-- The loop body of `ExecutionOrchestrator._execute_sequential`:
`acc` is the accumulated result list, `shared` the accumulated shared
data.  A step with unmet dependencies gets the synthesized failure and
the loop continues (regardless of its failure handling, as in the
source); a failed step with failure handling STOP breaks the loop. -/
def execSeqAux (d : Deps) :
    List ActionStep → List (String × List (String × String)) →
      List StepResult → List StepResult
  | [], _, acc => acc
  | step :: rest, shared, acc =>
    if step.depends_on ≠ [] ∧
        ¬ step.depends_on.all (fun dep => isStepSuccessful acc dep) then
      execSeqAux d rest shared (acc ++ [depsNotMetResult step])
    else
      let result := d.execStep step shared
      let shared2 :=
        match result.output with
        | some o => if o.isEmpty then shared else setAssoc shared step.step_id o
        | none => shared
      let acc2 := acc ++ [result]
      if result.status = ExecutionStatus.failure ∧
          step.failure_handling = FailureHandling.stop then acc2
      else execSeqAux d rest shared2 acc2

/-- `ExecutionOrchestrator._execute_sequential`. -/
def executeSequential (d : Deps) (steps : List ActionStep)
    (ctx : ExecutionContext) : List StepResult :=
  execSeqAux d steps ctx.shared_data []

/-- The dependent-steps walk of
`ExecutionOrchestrator._execute_parallel`. -/
def execParAux (d : Deps) (shared : List (String × List (String × String))) :
    List ActionStep → List String → List StepResult → List StepResult
  | [], _, acc => acc
  | step :: rest, completed, acc =>
    if ¬ step.depends_on.all (fun dep => completed.contains dep) then
      execParAux d shared rest completed (acc ++ [depsNotMetResult step])
    else
      let result := d.execStep step shared
      let completed2 :=
        if result.status = ExecutionStatus.success then completed ++ [step.step_id]
        else completed
      execParAux d shared rest completed2 (acc ++ [result])

/-- `ExecutionOrchestrator._execute_parallel`: run all independent
steps (joined in declaration order), then walk dependent steps in
declared order against the completed-id set. -/
def executeParallel (d : Deps) (plan : ActionPlan) (ctx : ExecutionContext) :
    List StepResult :=
  let independent := plan.steps.filter (fun s => s.depends_on.isEmpty)
  let dependent := plan.steps.filter (fun s => ¬ s.depends_on.isEmpty)
  let independent_results := independent.map (fun s => d.execStep s ctx.shared_data)
  let completed0 := (independent.zip independent_results).filterMap
    (fun p => if p.2.status = ExecutionStatus.success then some p.1.step_id else none)
  independent_results ++ execParAux d ctx.shared_data dependent completed0 []

/-- `ExecutionOrchestrator.execute_plan`, with the active-executions
map threaded explicitly: track the plan, run the pre-flight checks and
the steps, and — in the source's `finally` block — always pop the
execution id before returning. -/
def executePlan (d : Deps) (active : List (String × ActionPlan))
    (plan : ActionPlan) (ctx : ExecutionContext) :
    ExecutionResult × List (String × ActionPlan) :=
  let active1 := setAssoc active plan.execution_id plan
  let result :=
    match validatePlan d plan with
    | some err => createErrorResult plan.execution_id err d.now
    | none =>
      match checkAllPermissions d ctx plan.steps with
      | some reason => createBlockedResult plan.execution_id reason d.now
      | none =>
        match checkAllQuotas d ctx plan.steps with
        | some reason => createBlockedResult plan.execution_id reason d.now
        | none =>
          let step_results :=
            if plan.parallel_execution then executeParallel d plan ctx
            else executeSequential d plan.steps ctx
          normalizeExecution plan.execution_id step_results (some d.now) (some d.now)
  (result, eraseAssoc active1 plan.execution_id)

/-- `ExecutionOrchestrator.resume_plan` at wall-clock time `now`:
every branch returns an error result. -/
def resumePlan (active : List (String × ActionPlan)) (execution_id : String)
    (now : Int) : ExecutionResult :=
  match lookupStr active execution_id with
  | none =>
    createErrorResult execution_id
      ("No active execution found with ID: " ++ execution_id) now
  | some plan =>
    let incomplete := plan.steps.filter
      (fun s => s.status = ExecutionStatus.pending ∨ s.status = ExecutionStatus.running)
    if incomplete.isEmpty then
      createErrorResult execution_id "No incomplete steps to resume" now
    else
      createErrorResult execution_id
        "Resume not fully implemented - context not available" now

/-- `ExecutionOrchestrator.get_active_executions`. -/
def getActiveExecutions (active : List (String × ActionPlan)) : List String :=
  active.map Prod.fst

/-- Replacing the entries at a key and then dropping that key is the
same as just dropping the key. -/
theorem filter_map_replace {α : Type} (k : String) (v : α) (l : List (String × α)) :
    List.filter (fun p => !(p.1 == k))
      (l.map (fun p => if p.1 == k then (k, v) else p)) =
    List.filter (fun p => !(p.1 == k)) l := by
  induction l with
  | nil => rfl
  | cons x rest ih =>
    by_cases hx : x.1 = k
    · simp [hx]
      simpa using ih
    · have hx2 : (x.1 == k) = false := by simpa using hx
      simp [List.filter_cons, hx2, hx]
      simpa using ih

/-- Erasing the key just set gives the same map as erasing the key
from the original. -/
theorem eraseAssoc_setAssoc {α : Type} (l : List (String × α)) (k : String) (v : α) :
    eraseAssoc (setAssoc l k v) k = eraseAssoc l k := by
  unfold setAssoc eraseAssoc
  split
  · exact filter_map_replace k v l
  · rw [List.filter_append]
    simp

/-- Looking up an erased key yields nothing. -/
theorem lookupStr_eraseAssoc {α : Type} (l : List (String × α)) (k : String) :
    lookupStr (eraseAssoc l k) k = none := by
  unfold lookupStr eraseAssoc
  rw [List.find?_eq_none.mpr]
  · rfl
  · intro x hx
    rcases List.mem_filter.mp hx with ⟨_, hpred⟩
    simpa using hpred

end ExecOrchestrator

section ClaimC9

open ToolExec ResultNormalizer ExecOrchestrator

/-- C9 (confirmed): `execute_plan` pops the plan's execution id from
the active-executions map on every return path (validation error,
blocked, and normal completion are the embedded paths; the pop sits in
the source's `finally` block).  Afterwards `resume_plan` on that id
returns the "No active execution found" error result, and
`get_active_executions` lists no id that was not in flight before the
call (and never the finished id). -/
theorem claim_C9_active_executions_cleanup (d : Deps)
    (active : List (String × ActionPlan)) (plan : ActionPlan)
    (ctx : ExecutionContext) (later : Int) :
    lookupStr (executePlan d active plan ctx).2 plan.execution_id = none ∧
    resumePlan (executePlan d active plan ctx).2 plan.execution_id later =
      createErrorResult plan.execution_id
        ("No active execution found with ID: " ++ plan.execution_id) later ∧
    plan.execution_id ∉ getActiveExecutions (executePlan d active plan ctx).2 ∧
    (∀ e ∈ getActiveExecutions (executePlan d active plan ctx).2,
      e ∈ getActiveExecutions active) := by
  have h2 : (executePlan d active plan ctx).2 =
      eraseAssoc (setAssoc active plan.execution_id plan) plan.execution_id := rfl
  rw [h2, eraseAssoc_setAssoc]
  have hlook := lookupStr_eraseAssoc active plan.execution_id
  refine ⟨hlook, ?_, ?_, ?_⟩
  · unfold resumePlan
    rw [hlook]
  · intro hmem
    rcases List.mem_map.mp hmem with ⟨p, hp, hfst⟩
    rcases List.mem_filter.mp hp with ⟨_, hpred⟩
    rw [hfst] at hpred
    simp at hpred
  · intro e hmem
    rcases List.mem_map.mp hmem with ⟨p, hp, hfst⟩
    rcases List.mem_filter.mp hp with ⟨hpl, _⟩
    exact List.mem_map.mpr ⟨p, hpl, hfst⟩

end ClaimC9

section ExecutorFixtures

open ToolExec ResultNormalizer ExecOrchestrator

/-- An internal tool with no required permissions, as in the
repository's fixtures. -/
def textTool : ToolDefinition :=
  { tool_name := "text_processing"
    description := "Process text"
    category := .data
    vendor := .internal }

/-- Concrete collaborators: a registry knowing only `text_processing`,
permissive quotas, and an adapter whose every step succeeds. -/
def demoDeps : Deps :=
  { validateToolExists := fun t => t == "text_processing"
    validateInputs := fun _ _ => (true, none)
    getTool := fun t => if t == "text_processing" then some textTool else none
    checkQuota := fun _ _ _ => (true, "")
    execStep := fun s _ => normalizeStep s.step_id s.tool adapterOk 0
    now := 0 }

/-- A concrete execution context. -/
def demoCtx : ExecutionContext :=
  { user_id := "user123", office_id := "office456", permissions := sheetsScopes }

/-- A one-step plan. -/
def demoPlan : ActionPlan :=
  { execution_id := "exec-1"
    steps := [{ step_id := "a", tool := "text_processing" }] }

/-- A two-step plan whose second step depends on a step id that does
not exist in the plan. -/
def ghostPlan : ActionPlan :=
  { execution_id := "exec-2"
    steps :=
      [{ step_id := "a", tool := "text_processing" },
       { step_id := "b", tool := "text_processing", depends_on := ["ghost"] }] }

end ExecutorFixtures

section ClaimC9Witness

open ToolExec ExecOrchestrator ResultNormalizer

/-- Witness for `claim_C9_active_executions_cleanup` on a concrete
one-step plan against concrete collaborators. -/
theorem claim_C9_active_executions_cleanup_witness :
    lookupStr (executePlan demoDeps [] demoPlan demoCtx).2 "exec-1" = none ∧
    resumePlan (executePlan demoDeps [] demoPlan demoCtx).2 "exec-1" 5 =
      createErrorResult "exec-1" ("No active execution found with ID: " ++ "exec-1") 5 ∧
    "exec-1" ∉ getActiveExecutions (executePlan demoDeps [] demoPlan demoCtx).2 := by
  have h := claim_C9_active_executions_cleanup demoDeps [] demoPlan demoCtx 5
  exact ⟨h.1, h.2.1, h.2.2.1⟩

end ClaimC9Witness

section ClaimC4

open ToolExec ResultNormalizer ExecOrchestrator

/-- C4, counterexample: the claim states that a plan containing a step
whose `depends_on` names a nonexistent step id is rejected by plan
validation before any step runs (an error result with no step
results).  On the code, `_validate_plan` checks only tool existence
and input schemas, so `ghostPlan` validates; the first step executes
(successfully here), and the dangling-dependency step merely gets a
synthesized "Dependencies not met" failure: two step results and
PARTIAL_SUCCESS, not an error result with none. -/
theorem claim_C4_counterexample :
    validatePlan demoDeps ghostPlan = none ∧
    (executePlan demoDeps [] ghostPlan demoCtx).1.step_results.length = 2 ∧
    (executePlan demoDeps [] ghostPlan demoCtx).1.status =
      ExecutionStatus.partialSuccess ∧
    (executePlan demoDeps [] ghostPlan demoCtx).1.step_results.map StepResult.status =
      [ExecutionStatus.success, ExecutionStatus.failure] := by
  decide

/-- C4 (amended): plan validation never inspects `depends_on` (its
outcome is unchanged when every step's `depends_on` list is erased),
so a plan with a dangling dependency id is not rejected up front;
instead, during sequential execution the step with the dangling
dependency produces the synthesized "Dependencies not met" failure
result while the remaining steps still run. -/
theorem claim_C4_dangling_dependency (d : Deps) (plan : ActionPlan)
    (s t : ActionStep) (ctx : ExecutionContext) :
    validatePlan d
      { plan with steps := plan.steps.map (fun st => { st with depends_on := [] }) } =
      validatePlan d plan ∧
    (s.depends_on ≠ [] → t.depends_on = [] →
      executeSequential d [s, t] ctx =
        [depsNotMetResult s, d.execStep t ctx.shared_data]) := by
  constructor
  · show validatePlanSteps d (plan.steps.map fun st => { st with depends_on := [] }) =
      validatePlanSteps d plan.steps
    induction plan.steps with
    | nil => rfl
    | cons st rest ih =>
      rw [List.map_cons]
      unfold validatePlanSteps
      by_cases h1 : d.validateToolExists st.tool
      · simp only [h1, not_true_eq_false, if_false]
        cases hvi : d.validateInputs st.tool st.inputs with
        | mk valid err => cases valid <;> simp [ih]
      · simp [h1]
  · intro hs ht
    have hfalse : s.depends_on.all (fun dep => isStepSuccessful [] dep) = false := by
      cases hd : s.depends_on with
      | nil => exact absurd hd hs
      | cons a rest => simp [List.all_cons, isStepSuccessful, lookupStr]
    unfold executeSequential
    unfold execSeqAux
    rw [if_pos ⟨hs, by simp [hfalse]⟩]
    unfold execSeqAux
    rw [if_neg (by simp [ht])]
    dsimp only
    split
    · simp
    · unfold execSeqAux
      simp

/-- Witness for `claim_C4_dangling_dependency` at the two steps of the
concrete `ghostPlan` (in swapped order, so the dangling-dependency
step comes first). -/
theorem claim_C4_dangling_dependency_witness :
    executeSequential demoDeps
      [{ step_id := "b", tool := "text_processing", depends_on := ["ghost"] },
       { step_id := "a", tool := "text_processing" }] demoCtx =
      [depsNotMetResult
        { step_id := "b", tool := "text_processing", depends_on := ["ghost"] },
       demoDeps.execStep { step_id := "a", tool := "text_processing" }
         demoCtx.shared_data] :=
  (claim_C4_dangling_dependency demoDeps demoPlan
    { step_id := "b", tool := "text_processing", depends_on := ["ghost"] }
    { step_id := "a", tool := "text_processing" } demoCtx).2
    (by decide) (by decide)

end ClaimC4

namespace ScoringEngine

open ModelSelection

/-- The scoring weights (`DEFAULT_WEIGHTS` values; configurable). -/
structure Weights where
  capability_match : Rat := 40/100
  speed : Rat := 20/100
  cost_efficiency : Rat := 30/100
  reliability : Rat := 10/100
  deriving DecidableEq, Repr

/-- `COST_SCORES` from `scoring_engine.py`. -/
def COST_SCORES : CostLevel → Rat
  | .free => 10
  | .low => 8
  | .medium => 5
  | .high => 2

/-- `LATENCY_SCORES` from `scoring_engine.py`. -/
def LATENCY_SCORES : LatencyLevel → Rat
  | .fast => 10
  | .medium => 6
  | .slow => 3

/-- `getattr(model.capabilities, capability, 5)`. -/
def capLookup (caps : ModelCapabilities) : String → Int
  | "reasoning" => caps.reasoning
  | "coding" => caps.coding
  | "long_context" => caps.long_context
  | "summarization" => caps.summarization
  | "planning" => caps.planning
  | "structured_output" => caps.structured_output
  | "multimodal" => caps.multimodal
  | "speed" => caps.speed
  | "web_search" => caps.web_search
  | "real_time_data" => caps.real_time_data
  | _ => 5

/-- `ScoringEngine._calculate_capability_score`: mean of five core
capabilities when the profile requires nothing, else the weighted mean
of the required capabilities (5.0 when the weights sum to zero). -/
def calculateCapabilityScore (model : ModelDefinition)
    (task_profile : TaskCapabilityProfile) : Rat :=
  if task_profile.required_capabilities.isEmpty then
    ((model.capabilities.reasoning + model.capabilities.coding +
      model.capabilities.summarization + model.capabilities.planning +
      model.capabilities.structured_output : Int) : Rat) / 5
  else
    let total_weighted_score :=
      (task_profile.required_capabilities.map
        (fun cw => ((capLookup model.capabilities cw.1 : Int) : Rat) * cw.2)).sum
    let total_weight := (task_profile.required_capabilities.map (fun cw => cw.2)).sum
    if total_weight = 0 then 5 else total_weighted_score / total_weight

/-- `ScoringEngine._calculate_speed_score`. -/
def calculateSpeedScore (model : ModelDefinition) : Rat :=
  LATENCY_SCORES model.latency

/-- `ScoringEngine._calculate_cost_score`. -/
def calculateCostScore (model : ModelDefinition) : Rat :=
  COST_SCORES model.cost_level

/-- `ScoringEngine._calculate_reliability_score` (every member of the
`Provider` enum is in the table, so the 5.0 default is unreachable). -/
def calculateReliabilityScore (model : ModelDefinition) : Rat :=
  match model.provider with
  | .openai => 9
  | .anthropic => 9
  | .groq => 7
  | .ollama => 6

/-- The position of a cost level in `cost_order`
(free < low < medium < high). -/
def costIndex : CostLevel → Nat
  | .free => 0
  | .low => 1
  | .medium => 2
  | .high => 3

/-- The string value of a cost level, for messages. -/
def costLevelStr : CostLevel → String
  | .free => "free"
  | .low => "low"
  | .medium => "medium"
  | .high => "high"

/-- `ScoringEngine._check_disqualification`: not available; requires
local but non-local provider; insufficient context window; cost tier
above the profile's maximum. -/
def checkDisqualification (model : ModelDefinition)
    (task_profile : TaskCapabilityProfile) : Option String :=
  if ¬ model.available then
    some "Model is not available"
  else if task_profile.requires_local ∧ model.provider.value ≠ "ollama" then
    some "Task requires local model for sensitive content"
  else if model.max_tokens < task_profile.context_length_needed then
    some ("Insufficient context length (" ++ toString model.max_tokens ++ " < "
      ++ toString task_profile.context_length_needed ++ ")")
  else if costIndex model.cost_level > costIndex task_profile.max_cost_level then
    some ("Cost level " ++ costLevelStr model.cost_level ++ " exceeds maximum "
      ++ costLevelStr task_profile.max_cost_level)
  else none

/-- `ScoringEngine._score_model`. -/
def scoreModel (w : Weights) (model : ModelDefinition)
    (task_profile : TaskCapabilityProfile) : ModelScore :=
  match checkDisqualification model task_profile with
  | some reason =>
    { model_name := model.name, provider := model.provider,
      total_score := 0, capability_score := 0, speed_score := 0,
      cost_score := 0, reliability_score := 0,
      meets_requirements := false, disqualification_reason := some reason }
  | none =>
    let capability_score := calculateCapabilityScore model task_profile
    let speed_score := calculateSpeedScore model
    let cost_score := calculateCostScore model
    let reliability_score := calculateReliabilityScore model
    let total_score :=
      capability_score * w.capability_match + speed_score * w.speed
        + cost_score * w.cost_efficiency + reliability_score * w.reliability
    { model_name := model.name, provider := model.provider,
      total_score := total_score, capability_score := capability_score,
      speed_score := speed_score, cost_score := cost_score,
      reliability_score := reliability_score,
      meets_requirements :=
        decide ((task_profile.min_capability_score : Rat) ≤ capability_score) }

/-- A model qualifies for a profile when it is not disqualified and its
capability sub-score meets the profile's minimum. -/
def qualifies (model : ModelDefinition) (task_profile : TaskCapabilityProfile) : Prop :=
  checkDisqualification model task_profile = none ∧
    (task_profile.min_capability_score : Rat) ≤ calculateCapabilityScore model task_profile

/-- Profile `Q` is stricter than `P` in the four ways the spec names,
with the required-capability weights unchanged. -/
def Stricter (P Q : TaskCapabilityProfile) : Prop :=
  Q.required_capabilities = P.required_capabilities ∧
  P.min_capability_score ≤ Q.min_capability_score ∧
  costIndex Q.max_cost_level ≤ costIndex P.max_cost_level ∧
  (P.requires_local = true → Q.requires_local = true) ∧
  P.context_length_needed ≤ Q.context_length_needed

/-- The capability sub-score only reads the required-capability
weights of the profile. -/
theorem calculateCapabilityScore_congr (model : ModelDefinition)
    {P Q : TaskCapabilityProfile}
    (h : Q.required_capabilities = P.required_capabilities) :
    calculateCapabilityScore model Q = calculateCapabilityScore model P := by
  unfold calculateCapabilityScore
  rw [h]

/-- The disqualification check passes exactly when all four conditions
are absent. -/
theorem checkDisqualification_eq_none_iff (model : ModelDefinition)
    (p : TaskCapabilityProfile) :
    checkDisqualification model p = none ↔
      model.available = true ∧
      ¬ (p.requires_local = true ∧ model.provider.value ≠ "ollama") ∧
      ¬ (model.max_tokens < p.context_length_needed) ∧
      ¬ (costIndex model.cost_level > costIndex p.max_cost_level) := by
  unfold checkDisqualification
  split_ifs with h1 h2 h3 h4 <;> simp_all

end ScoringEngine

section ClaimC7

open ModelSelection ScoringEngine

/-- C7 (confirmed): the disqualification-plus-requirements predicate is
monotone — making a profile stricter in any of the four ways (raising
`min_capability_score`, lowering `max_cost_level`, setting
`requires_local`, raising `context_length_needed`) never enlarges the
qualifying set: every model qualifying under the stricter profile also
qualifies under the original. -/
theorem claim_C7_stricter_profile_monotone (model : ModelDefinition)
    (P Q : TaskCapabilityProfile) (hPQ : Stricter P Q)
    (hq : qualifies model Q) : qualifies model P := by
  obtain ⟨hreq, hmin, hcost, hlocal, hctx⟩ := hPQ
  obtain ⟨hdq, hcap⟩ := hq
  constructor
  · rw [checkDisqualification_eq_none_iff] at hdq ⊢
    obtain ⟨a1, a2, a3, a4⟩ := hdq
    refine ⟨a1, ?_, ?_, ?_⟩
    · intro hg
      exact a2 ⟨hlocal hg.1, hg.2⟩
    · intro hlt
      exact a3 (lt_of_lt_of_le hlt hctx)
    · intro hgt
      exact a4 (by omega)
  · calc ((P.min_capability_score : Rat))
        ≤ (Q.min_capability_score : Rat) := by exact_mod_cast hmin
      _ ≤ calculateCapabilityScore model Q := hcap
      _ = calculateCapabilityScore model P := calculateCapabilityScore_congr model hreq

/-- A strict profile requiring a local model and a medium cost cap. -/
def strictProfile : TaskCapabilityProfile :=
  { min_capability_score := 5
    max_cost_level := .medium
    requires_local := true
    context_length_needed := 4000 }

/-- The default (lenient) profile. -/
def baseProfile : TaskCapabilityProfile := {}

/-- Witness for `claim_C7_stricter_profile_monotone`: the free local
model qualifies under the strict profile, hence under the default
profile too. -/
theorem claim_C7_stricter_profile_monotone_witness :
    Stricter baseProfile strictProfile ∧
    qualifies freeLocalModel strictProfile ∧
    qualifies freeLocalModel baseProfile := by
  have hs : Stricter baseProfile strictProfile := by
    refine ⟨rfl, by decide, by decide, ?_, by decide⟩
    intro h
    exact absurd h (by decide)
  have hq : qualifies freeLocalModel strictProfile := by
    constructor
    · decide
    · norm_num [calculateCapabilityScore, freeLocalModel, strictProfile]
  exact ⟨hs, hq, claim_C7_stricter_profile_monotone freeLocalModel baseProfile
    strictProfile hs hq⟩

end ClaimC7

namespace PolicyEnforcer

open ModelSelection

/-- One entry of the `restricted_patterns` policy table; the compiled
regex's search over the (already lowercased) input is carried as the
function `pattern_search`. -/
structure Restriction where
  pattern_search : String → Bool
  allowed_providers : List String := []
  reason : String := "Policy restriction"

/-- The loaded policy configuration of `PolicyEnforcer`. -/
structure PolicyConfig where
  prefer_local : Bool := false
  local_capability_threshold : Rat := 6
  restricted_patterns : List Restriction := []
  provider_priority : List String := []

/-- `PolicyEnforcer._check_restrictions`: the allowed-provider set of
the first restriction whose pattern matches the input, if any. -/
def checkRestrictions (cfg : PolicyConfig) (user_input : String) :
    Option (List String) :=
  match cfg.restricted_patterns.find? (fun r => r.pattern_search user_input) with
  | some r => some r.allowed_providers
  | none => none

/-- Python's `b < b'` on booleans (False < True), as a sort-key
component. -/
def boolVal (b : Bool) : Nat := if b then 1 else 0

/-- The list-sort relation for `key=(meets_requirements, total_score),
reverse=True`: `a` may precede `b` iff `a`'s key is lexicographically
at least `b`'s. -/
def scoreDescLe (a b : ModelScore) : Prop :=
  boolVal b.meets_requirements < boolVal a.meets_requirements ∨
    (boolVal b.meets_requirements = boolVal a.meets_requirements ∧
      b.total_score ≤ a.total_score)

instance : DecidableRel scoreDescLe := fun a b => by
  unfold scoreDescLe
  infer_instance

/-- `PolicyEnforcer._apply_local_preference`: boost the total score of
local (ollama) models whose capability sub-score meets the threshold
by 0.5, then re-sort on `(meets_requirements, total_score)`
descending. -/
def applyLocalPreference (scores : List ModelScore)
    (models : String → Option ModelDefinition) (threshold : Rat) :
    List ModelScore :=
  let result := scores.map (fun score =>
    match models score.model_name with
    | some model =>
      if model.provider = Provider.ollama ∧ threshold ≤ score.capability_score then
        { score with total_score := score.total_score + 1/2 }
      else score
    | none => score)
  result.insertionSort scoreDescLe

/-- Python `priority_list.index(value)` with 999 for a missing value. -/
def priorityIdx (priority : List String) (s : ModelScore) : Nat :=
  match priority.findIdx? (fun v => v == s.provider.value) with
  | some i => i
  | none => 999

/-- The list-sort relation for `key=(meets_requirements, total_score,
-priority), reverse=True`. -/
def scoreDescLe3 (priority : List String) (a b : ModelScore) : Prop :=
  boolVal b.meets_requirements < boolVal a.meets_requirements ∨
    (boolVal b.meets_requirements = boolVal a.meets_requirements ∧
      (b.total_score < a.total_score ∨
        (b.total_score = a.total_score ∧
          priorityIdx priority a ≤ priorityIdx priority b)))

instance {pl : List String} : DecidableRel (scoreDescLe3 pl) :=
  fun a b => by
    unfold scoreDescLe3
    infer_instance

/-- `PolicyEnforcer._apply_provider_priority`. -/
def applyProviderPriority (priority : List String)
    (scores : List ModelScore) : List ModelScore :=
  if priority.isEmpty then scores
  else scores.insertionSort (scoreDescLe3 priority)

/-- `PolicyEnforcer.filter_by_policy`: content restrictions (dropped
when the matched allowed set is empty, as Python's falsy check does),
then the local-preference boost and re-sort, then the
provider-priority tie-break. -/
def filterByPolicy (cfg : PolicyConfig) (scores : List ModelScore)
    (models : String → Option ModelDefinition) (user_input : String) :
    List ModelScore :=
  let filtered := scores
  let filtered :=
    match checkRestrictions cfg user_input with
    | some allowed =>
      if allowed.isEmpty then filtered
      else filtered.filter (fun s => allowed.contains s.provider.value)
    | none => filtered
  let filtered :=
    if cfg.prefer_local then
      applyLocalPreference filtered models cfg.local_capability_threshold
    else filtered
  if ¬ cfg.provider_priority.isEmpty then
    applyProviderPriority cfg.provider_priority filtered
  else filtered

/-- The boost step preserves each entry's model name, so the name
multiset is unchanged by `_apply_local_preference`. -/
theorem applyLocalPreference_names (scores : List ModelScore)
    (models : String → Option ModelDefinition) (threshold : Rat) :
    ((applyLocalPreference scores models threshold).map ModelScore.model_name :
        Multiset String) =
      (scores.map ModelScore.model_name : Multiset String) := by
  unfold applyLocalPreference
  have hperm := List.perm_insertionSort scoreDescLe
    (scores.map (fun score =>
      match models score.model_name with
      | some model =>
        if model.provider = Provider.ollama ∧ threshold ≤ score.capability_score then
          { score with total_score := score.total_score + 1/2 }
        else score
      | none => score))
  rw [Multiset.coe_eq_coe.mpr (hperm.map ModelScore.model_name)]
  rw [List.map_map]
  congr 1
  apply List.map_congr_left
  intro s _
  simp only [Function.comp]
  cases models s.model_name with
  | some model =>
    dsimp only
    split <;> rfl
  | none => rfl

/-- Sorting by provider priority permutes the list. -/
theorem applyProviderPriority_names (priority : List String)
    (scores : List ModelScore) :
    ((applyProviderPriority priority scores).map ModelScore.model_name :
        Multiset String) =
      (scores.map ModelScore.model_name : Multiset String) := by
  unfold applyProviderPriority
  split
  · rfl
  · exact Multiset.coe_eq_coe.mpr
      ((List.perm_insertionSort (scoreDescLe3 priority) scores).map
        ModelScore.model_name)

end PolicyEnforcer

section ClaimC6

open ModelSelection PolicyEnforcer

/-- C6 (confirmed): for every policy configuration, scored list, model
map and user input, `filter_by_policy` returns a permutation of a
subset of its input — as name multisets, the output is contained in
the input; content restrictions can only remove entries, and the
local-preference boost and provider-priority tie-break only reorder or
adjust entries already present. -/
theorem claim_C6_policy_filter_subset (cfg : PolicyConfig)
    (scores : List ModelScore) (models : String → Option ModelDefinition)
    (user_input : String) :
    ((filterByPolicy cfg scores models user_input).map ModelScore.model_name :
        Multiset String) ≤
      (scores.map ModelScore.model_name : Multiset String) := by
  unfold filterByPolicy
  have hstep1 : ∀ l : List ModelScore,
      ((match checkRestrictions cfg user_input with
        | some allowed =>
          if allowed.isEmpty then l
          else l.filter (fun s => allowed.contains s.provider.value)
        | none => l).map ModelScore.model_name : Multiset String) ≤
        (l.map ModelScore.model_name : Multiset String) := by
    intro l
    cases checkRestrictions cfg user_input with
    | some allowed =>
      dsimp only
      split
      · exact le_refl _
      · exact Multiset.coe_le.mpr
          (((List.filter_sublist l).map ModelScore.model_name).subperm)
    | none => exact le_refl _
  have hstep2 : ∀ l : List ModelScore,
      ((if cfg.prefer_local then
          applyLocalPreference l models cfg.local_capability_threshold
        else l).map ModelScore.model_name : Multiset String) =
        (l.map ModelScore.model_name : Multiset String) := by
    intro l
    split
    · exact applyLocalPreference_names l models cfg.local_capability_threshold
    · rfl
  have hstep3 : ∀ l : List ModelScore,
      ((if ¬ cfg.provider_priority.isEmpty then
          applyProviderPriority cfg.provider_priority l
        else l).map ModelScore.model_name : Multiset String) =
        (l.map ModelScore.model_name : Multiset String) := by
    intro l
    split
    · exact applyProviderPriority_names cfg.provider_priority l
    · rfl
  calc _ = _ := hstep3 _
    _ = _ := hstep2 _
    _ ≤ _ := hstep1 scores

end ClaimC6
